import Mathlib

/-!
Verification of the multi-tenant Knex connection / schema-lifecycle manager
(`MultiTenantKnex`, `src/lib/MultiTenantKnex.ts`, both schema-layout variants;
the two variants differ only in which config / models path is used, not in any
of the logic treated here).

The TypeScript class is embedded as a state machine over `MTState`.  Pure
orchestration logic (migration planning and sequential application, the
fleet-wide batch, provisioning, connection registry, ORM binding, the active
context slot) is translated function-by-function from the source.  Behaviour of
the external libraries the source calls into (knex's migration API, Objection's
static `Model.knex` binding, the ES module cache backing `import`) is modelled
explicitly where a claim depends on it, with a comment on the definition.
-/

/-- Association-list lookup, the embedding of reading `obj[key]` on a plain
JavaScript object used as a map (`tenantConnections`, `tenantORMs`, ...). -/
def lookupK {κ α : Type} [DecidableEq κ] (k : κ) : List (κ × α) → Option α
  | [] => none
  | (k', v) :: rest => if k' = k then some v else lookupK k rest

/-- Association-list update, the embedding of `obj[key] = value`: replaces the
entry in place when the key is present, otherwise appends a new entry. -/
def insertK {κ α : Type} [DecidableEq κ] (k : κ) (v : α) : List (κ × α) → List (κ × α)
  | [] => [(k, v)]
  | (k', v') :: rest => if k' = k then (k, v) :: rest else (k', v') :: insertK k v rest

/-- Embedding of JavaScript `String.prototype.toLowerCase()` as applied to
tenant names in `createTenant` (`subdomain = subdomain.toLowerCase()`):
character-wise lower-casing. -/
def lowerStr (s : String) : String := String.mk (s.data.map Char.toLower)

/-- The tenant's physical database name, the template literal
`tenant_${subdomain}` used throughout the source. -/
def tenantDbName (sub : String) : String := "tenant_" ++ sub

/-! ## Migration layer

One physical database's migration state.  Migration units are identified by
their name/file identifier (timestamp-prefixed, so the discoverable unit list
handed to us by `connection.migrate.list()` is in ascending identifier
order). -/

/-- Migration bookkeeping of one physical database: the applied-ledger (the
`knex_migrations` table, in application order) and the schema changes that the
applied units' `up` operations have performed. -/
structure MigDb where
  applied : List String
  schema : List String
deriving DecidableEq, Repr

/-- The pending part of `connection.migrate.list()` for a database:
the discoverable unit set minus the entries of the applied-ledger, preserving
the discovery (ascending-identifier) order.  `migrationFiles[1]` in
`_initializeMigrations`. -/
def pendingOf (source : List String) (db : MigDb) : List String :=
  source.filter (fun u => !(db.applied.contains u))

/-- Modelled from the spec (knex's `migrate.up` is external to this
repository): applying one named unit runs its `up` operation and, on success,
records the unit in the applied-ledger before returning; on failure it raises
an error carrying the failing unit's identifier and the ledger is not
extended. -/
def migrateUp (upFails : String → Bool) (name : String) (db : MigDb) :
    Except String MigDb :=
  if upFails name then .error name
  else .ok ⟨db.applied ++ [name], db.schema ++ [name]⟩

/-- Result of running a migration plan: the database afterwards, the unit
identifiers whose `up` was attempted (in execution order), and the identifier
carried by the raised error, if any. -/
structure RunResult where
  db : MigDb
  ran : List String
  err : Option String
deriving DecidableEq, Repr

/-- The closure returned by `_initializeMigrations`: runs
`connection.migrate.up({name})` for each captured pending unit sequentially;
the first failure propagates and stops the loop. -/
def runPending (upFails : String → Bool) : List String → MigDb → RunResult
  | [], db => ⟨db, [], none⟩
  | u :: rest, db =>
    match migrateUp upFails u db with
    | .error e => ⟨db, [u], some e⟩
    | .ok db' =>
      let r := runPending upFails rest db'
      ⟨r.db, u :: r.ran, r.err⟩

/-- The log lines relevant to migration batches, as structured entries. -/
inductive LogEntry where
  /-- Entry for `console.log("pendingMigrations v1.1.0", pendingMigrations)`. -/
  | pendingList (units : List String)
  /-- Entry for `"No new migrations to run. Migrations are already up to date."`. -/
  | noNew
  /-- Entry for `console.warn("Migration warning for tenant", error)`: note the entry
  carries the error (the failing unit's identifier), not a tenant id. -/
  | migrationWarning (errId : String)
  /-- Entry for `"All tenant migrations completed successfully."`. -/
  | allTenantsComplete
  /-- Entry for `console.error("Error migrating all tenants:", error)`. -/
  | errorAll
deriving DecidableEq, Repr

/-- Embeds `_initializeMigrations(connection)`: reads the pending list, logs it, and
returns `null` (here `none`) when nothing is pending, otherwise the plan the
returned closure captured (the pending units, in list order). -/
def initMigrations (source : List String) (db : MigDb) :
    List LogEntry × Option (List String) :=
  let pending := pendingOf source db
  if pending.length = 0 then ([.pendingList pending, .noNew], none)
  else ([.pendingList pending], some pending)

/-- The caller pattern `const m = await _initializeMigrations(c); if (m) await m()`:
plan, then run the plan only when one was returned. -/
def runIfPending (upFails : String → Bool) (source : List String) (db : MigDb) :
    RunResult :=
  match (initMigrations source db).2 with
  | none => ⟨db, [], none⟩
  | some p => runPending upFails p db

/-! ## Fleet layer: `migrateAllTenants` -/

/-- The migration state of every physical database, keyed by database name. -/
abbrev DbMap := List (String × MigDb)

/-- Outcome of `migrateAllTenants`: the databases afterwards, the emitted log,
and the error propagated to the caller if the batch itself threw (`err` is the
rethrow from the outer catch; apply-phase failures never set it). -/
structure FleetResult where
  dbs : DbMap
  logs : List LogEntry
  err : Option String
deriving DecidableEq, Repr

/-- Plan phase of `migrateAllTenants`: for every listed tenant, a fresh
connection to its database is opened and `_initializeMigrations` computes its
plan.  The plans run under `Promise.all`, but each touches only its own
tenant's database, so the phase is modelled tenant-by-tenant against the
databases as they were when the phase started; `none` models the rejection of
the whole `Promise.all` when some tenant's database is unreachable. -/
def planAll (source : List String) (dbs : DbMap) :
    List String → Option (List (String × Option (List String)) × List LogEntry)
  | [] => some ([], [])
  | sub :: rest =>
    match lookupK (tenantDbName sub) dbs with
    | none => none
    | some db =>
      let (logs, plan) := initMigrations source db
      match planAll source dbs rest with
      | none => none
      | some (plans, logs') => some ((sub, plan) :: plans, logs ++ logs')

/-- Apply phase of `migrateAllTenants`: the sequential `for` loop over the
returned closures.  A `null` plan is skipped; a failing plan
(`error instanceof Error`) is logged with `console.warn` and the loop
continues with the next tenant. -/
def applyAll (upFails : String → Bool) :
    List (String × Option (List String)) → DbMap → DbMap × List LogEntry
  | [], dbs => (dbs, [])
  | (_, none) :: rest, dbs => applyAll upFails rest dbs
  | (sub, some p) :: rest, dbs =>
    let db := (lookupK (tenantDbName sub) dbs).getD ⟨[], []⟩
    let r := runPending upFails p db
    let dbs' := insertK (tenantDbName sub) r.db dbs
    let (dbs'', logs) := applyAll upFails rest dbs'
    match r.err with
    | some e => (dbs'', .migrationWarning e :: logs)
    | none => (dbs'', logs)

/-- Embeds `migrateAllTenants()`: list the known tenants, build every tenant's plan
concurrently, then apply the plans sequentially; one tenant's apply failure is
warned about and does not stop the loop; the method finally logs
`"All tenant migrations completed successfully."` and returns `undefined` (no
per-tenant outcome value).  A plan-phase throw is caught by the outer catch,
logged, and rethrown. -/
def migrateAllTenants (source : List String) (upFails : String → Bool)
    (tenants : List String) (dbs : DbMap) : FleetResult :=
  match planAll source dbs tenants with
  | none => ⟨dbs, [.errorAll], some "ConnectionError"⟩
  | some (plans, planLogs) =>
    let (dbs', applyLogs) := applyAll upFails plans dbs
    ⟨dbs', planLogs ++ applyLogs ++ [.allTenantsComplete], none⟩

/-! ## The `MultiTenantKnex` class -/

/-- A row of the system database's `Tenants` table, as inserted by
`createTenant` (`name`, `status`, `subdomain`, `dbName`).  The table's unique
constraint is on `name`; the code always stores `name = subdomain`, both
already lower-cased, so the unique key is the normalized subdomain. -/
structure TenantRecord where
  name : String
  status : String
  subdomain : String
  dbName : String
deriving DecidableEq, Repr

/-- The errors the class throws, one constructor per `throw` site / error
family of the spec's taxonomy. -/
inductive TenantError where
  /-- Error `"Subdomain already exists"` — insert failed with code 23505. -/
  | duplicate
  /-- Error `"Something went wrong"` — any other insert failure. -/
  | provisioningFailure
  /-- The `CREATE DATABASE` raw statement failed. -/
  | rawFailure
  /-- a migration unit's `up` failed; carries the unit's identifier. -/
  | migrationFailure (unit : String)
  /-- a seed unit failed during provisioning. -/
  | seedFailure
  /-- Error `` `No tenant with subdomain ${subdomain}` ``. -/
  | unknownTenant (sub : String)
  /-- Error `"No current db set"` thrown by `getCurrentORM`. -/
  | noContext
deriving DecidableEq, Repr

/-- The storage-layer outcomes outside the class's control during one
`createTenant` call: whether the registry insert's infrastructure succeeds
(when no uniqueness violation applies), whether `CREATE DATABASE` succeeds,
which migration units' `up` operations fail, and whether seeding succeeds. -/
structure ProvEnv where
  insertOk : Bool
  createDbOk : Bool
  upFails : String → Bool
  seedOk : Bool

/-- The whole state of a `MultiTenantKnex` instance together with the external
state it drives.  Connection handles and ORM binding objects are heap-like:
identified by allocation order (`nextConn` / `nextOrm`), so that JavaScript
reference identity and freshness are expressible.

Model classes deserve care: `_importModels` loads the model files with
`import`, and the ES module system caches modules, so every call receives the
*same* class objects; `orm[modelName] = modelModule[modelName]` stores those
shared objects, and `modelModule[modelName].knex(connection)` is Objection's
static setter, which rebinds the shared class itself.  The per-class static
knex binding therefore lives in one table `classKnex` keyed by class name,
not inside any ORM binding object; an ORM binding object is just the set of
class names its map holds (the descriptor for a name is the cached class). -/
structure MTState where
  /-- model class names discovered under the models path (`_getModelFiles`
  plus the exports of each file); fixed for the instance's lifetime. -/
  models : List String
  /-- each class's statically declared association targets (the model names
  its `associate` hook wires up); a class with no entry has no hook. -/
  assocDecl : List (String × List String)
  /-- the discoverable migration unit identifiers, in ascending order. -/
  migSource : List String
  nextConn : Nat
  /-- database name each connection handle was opened against. -/
  connDb : List (Nat × String)
  /-- handles on which `destroy()` has been called. -/
  destroyed : List Nat
  /-- the system connection (`mainKnex`), opened by the constructor. -/
  mainConn : Nat
  tenantConnections : List (String × Nat)
  /-- per model class (module-cached, keyed by name): the connection its
  static knex binding currently routes queries to. -/
  classKnex : List (String × Nat)
  /-- per model class: the association targets its hook most recently
  resolved (identified by class name = identity of the cached class). -/
  classAssoc : List (String × List String)
  nextOrm : Nat
  /-- ORM binding objects by identity: the model map each object holds. -/
  ormHeap : List (Nat × List String)
  mainORM : Nat
  currentORM : Option Nat
  tenantORMs : List (String × Nat)
  /-- rows of the system database's `Tenants` table. -/
  registry : List TenantRecord
  /-- physical databases created by `CREATE DATABASE`. -/
  createdDbs : List String
  /-- migration state of every physical database, by database name. -/
  dbMig : DbMap
deriving Repr

/-- The constructor: `tenantConnections = {}`, `tenantORMs = {}`,
`mainORM = {}` (an empty binding object, allocated as object 0),
`mainKnex = knex(knexConfig)` (handle 0 against the configured database), and
`currentORM = this.mainORM` (a reference to object 0).  The environment (model
files, migration units, pre-existing `Tenants` rows, database states) is
passed in. -/
def mkMTState (mainDb : String) (models : List String)
    (assocDecl : List (String × List String)) (migSource : List String)
    (registry : List TenantRecord) (dbMig : DbMap) : MTState :=
  { models := models, assocDecl := assocDecl, migSource := migSource,
    nextConn := 1, connDb := [(0, mainDb)], destroyed := [], mainConn := 0,
    tenantConnections := [], classKnex := [], classAssoc := [],
    nextOrm := 1, ormHeap := [(0, [])], mainORM := 0, currentORM := some 0,
    tenantORMs := [], registry := registry, createdDbs := [], dbMig := dbMig }

/-- Embeds `_createTenantConnection(subdomain)`: if a handle for the tenant is
registered, `destroy()` it; then open a fresh handle against the base config
with the database overridden to `tenant_${subdomain}`, register it, and
return it. -/
def createTenantConnection (s : MTState) (sub : String) : MTState × Nat :=
  let s1 :=
    match lookupK sub s.tenantConnections with
    | some old => { s with destroyed := old :: s.destroyed }
    | none => s
  let c := s1.nextConn
  ({ s1 with
      nextConn := c + 1,
      connDb := (c, tenantDbName sub) :: s1.connDb,
      tenantConnections := insertK sub c s1.tenantConnections }, c)

/-- First pass of `_importModels`: `modelModule[modelName].knex(connection)`
for every discovered model — each module-cached class's static knex binding is
set to `connection`. -/
def bindAll (models : List String) (conn : Nat) (ck : List (String × Nat)) :
    List (String × Nat) :=
  models.foldl (fun acc n => insertK n conn acc) ck

/-- Modelled from the spec (the hook bodies are user model code): the second
pass calls `modelClass.associate(orm)` for every class that has the hook, and
the hook wires the class's association references to entries of the map it
received, so each declared target resolves to `orm[target]` — which is the
module-cached class of that name. -/
def resolveAssoc (decl : List (String × List String)) (ormNames : List String) :
    List (String × List String) :=
  ormNames.map (fun n =>
    (n, ((lookupK n decl).getD []).filter (fun t => ormNames.contains t)))

/-- Embeds `_importModels(connection)`: load the model files (module-cached), store
each exported class in a fresh `orm` object and rebind the class's static knex
to `connection`; then run the associate pass over the object.  Returns the
fresh binding object. -/
def importModels (s : MTState) (conn : Nat) : MTState × Nat :=
  let oid := s.nextOrm
  ({ s with
      classKnex := bindAll s.models conn s.classKnex,
      classAssoc := resolveAssoc s.assocDecl s.models,
      nextOrm := oid + 1,
      ormHeap := (oid, s.models) :: s.ormHeap }, oid)

/-- Embeds `buildMainORM()`: `this.mainORM = await this._importModels(this.mainKnex)`.
Note it reassigns the `mainORM` field only; `currentORM` is not touched. -/
def buildMainORM (s : MTState) : MTState :=
  let p := importModels s s.mainConn
  { p.1 with mainORM := p.2 }

/-- Embeds `createTenant(subdomain)`: lower-case the name; insert the registry row
(uniqueness violation ⇒ `"Subdomain already exists"`, any other insert failure
⇒ `"Something went wrong"`); `CREATE DATABASE tenant_<sub>`; open the tenant
connection; plan and run the new database's migrations; run the seeds; build
and store the tenant's ORM binding; return the inserted row.  A throw
propagates immediately, keeping every state change made so far. -/
def createTenant (s : MTState) (nameArg : String) (env : ProvEnv) :
    MTState × Except TenantError TenantRecord :=
  let sub := lowerStr nameArg
  if s.registry.any (fun r => r.name == sub) then
    (s, .error .duplicate)
  else if !env.insertOk then
    (s, .error .provisioningFailure)
  else
    let tr : TenantRecord := ⟨sub, "active", sub, tenantDbName sub⟩
    let s2 := { s with registry := s.registry ++ [tr] }
    if !env.createDbOk then (s2, .error .rawFailure)
    else
      let s3 := { s2 with
                  createdDbs := s2.createdDbs ++ [tenantDbName sub],
                  dbMig := insertK (tenantDbName sub) ⟨[], []⟩ s2.dbMig }
      let p := createTenantConnection s3 sub
      let s4 := p.1
      let db := (lookupK (tenantDbName sub) s4.dbMig).getD ⟨[], []⟩
      let r := runIfPending env.upFails s4.migSource db
      let s5 := { s4 with dbMig := insertK (tenantDbName sub) r.db s4.dbMig }
      match r.err with
      | some u => (s5, .error (.migrationFailure u))
      | none =>
        if !env.seedOk then (s5, .error .seedFailure)
        else
          let q := importModels s5 p.2
          ({ q.1 with tenantORMs := insertK sub q.2 q.1.tenantORMs }, .ok tr)

/-- Embeds `setCurrentORM(subdomain)`: select an already-built tenant binding as the
current one; throws when none is stored for the subdomain. -/
def setCurrentORM (s : MTState) (sub : String) : MTState × Except TenantError Unit :=
  match lookupK sub s.tenantORMs with
  | none => (s, .error (.unknownTenant sub))
  | some oid => ({ s with currentORM := some oid }, .ok ())

/-- Embeds `setCurrentTenantConnection(subdomain)`: throws
`` `No tenant with subdomain ${subdomain}` `` when no binding is stored for
the subdomain (leaving everything unchanged); otherwise re-opens the tenant's
connection, rebuilds the tenant's ORM binding against it, stores the binding,
and makes it current. -/
def setCurrentTenantConnection (s : MTState) (sub : String) :
    MTState × Except TenantError Unit :=
  match lookupK sub s.tenantORMs with
  | none => (s, .error (.unknownTenant sub))
  | some _ =>
    let p := createTenantConnection s sub
    let q := importModels p.1 p.2
    ({ q.1 with tenantORMs := insertK sub q.2 q.1.tenantORMs,
                currentORM := some q.2 }, .ok ())

/-- Embeds `setCurrentMainConnection()`: rebuild the system binding against the
system connection and make it current. -/
def setCurrentMainConnection (s : MTState) : MTState :=
  let p := importModels s s.mainConn
  { p.1 with mainORM := p.2, currentORM := some p.2 }

/-- Embeds `getCurrentORM()`: throws `"No current db set"` when the slot is empty,
otherwise returns the referenced binding object. -/
def getCurrentORM (s : MTState) : Except TenantError Nat :=
  match s.currentORM with
  | none => .error .noContext
  | some oid => .ok oid

/-- Embeds `buildTenantConnections()`: `getDbTenants()` then a connection per row. -/
def buildTenantConnections (s : MTState) : MTState :=
  s.registry.foldl (fun acc r => (createTenantConnection acc r.subdomain).1) s

/-- Embeds `buildTenantORMs()`: build connections first if none exist, then an ORM
binding per registered connection. -/
def buildTenantORMs (s : MTState) : MTState :=
  let s0 := if s.tenantConnections.length = 0 then buildTenantConnections s else s
  s0.tenantConnections.foldl
    (fun acc kv =>
      let q := importModels acc kv.2
      { q.1 with tenantORMs := insertK kv.1 q.2 q.1.tenantORMs })
    s0

/-- Embeds `migrateMainDb()`: plan and run the system connection's migrations;
a failure is logged and rethrown. -/
def migrateMainDb (s : MTState) (upFails : String → Bool) : MTState × Option String :=
  let dbn := (lookupK s.mainConn s.connDb).getD ""
  let db := (lookupK dbn s.dbMig).getD ⟨[], []⟩
  let r := runIfPending upFails s.migSource db
  ({ s with dbMig := insertK dbn r.db s.dbMig }, r.err)

/-- The class method `migrateAllTenants()`: a fresh connection per registered
tenant, then the fleet batch of the fleet layer above. -/
def migrateAllTenantsOp (s : MTState) (upFails : String → Bool) : MTState :=
  let s1 := s.registry.foldl (fun acc r => (createTenantConnection acc r.subdomain).1) s
  let fr := migrateAllTenants s.migSource upFails (s.registry.map (·.subdomain)) s1.dbMig
  { s1 with dbMig := fr.dbs }

/-- Embeds `seedsAllTenants()`: a fresh connection per registered tenant, then the
seed units run per tenant; seed units only write table data, which no claim
observes, so only the connection effects are modelled. -/
def seedsAllTenantsOp (s : MTState) : MTState :=
  s.registry.foldl (fun acc r => (createTenantConnection acc r.subdomain).1) s

/-- Embeds `migrate()` of the first variant: main database first (a failure there
propagates), then all tenants, then all seeds. -/
def migrateOp (s : MTState) (upFails : String → Bool) : MTState :=
  let p := migrateMainDb s upFails
  match p.2 with
  | some _ => p.1
  | none => seedsAllTenantsOp (migrateAllTenantsOp p.1 upFails)

/-- One public operation of the class, with the storage-layer outcomes the
operation depends on. -/
inductive Op where
  | opBuildMainORM
  | opCreateTenant (sub : String) (env : ProvEnv)
  | opSetCurrentORM (sub : String)
  | opSetCurrentTenantConnection (sub : String)
  | opSetCurrentMainConnection
  | opBuildTenantConnections
  | opBuildTenantORMs
  | opMigrateMainDb (upFails : String → Bool)
  | opMigrateAllTenants (upFails : String → Bool)
  | opSeedsAllTenants
  | opMigrate (upFails : String → Bool)

/-- The state transition of one operation (thrown errors propagate to the
caller; the state reached at the throw is kept). -/
def applyOp (s : MTState) : Op → MTState
  | .opBuildMainORM => buildMainORM s
  | .opCreateTenant sub env => (createTenant s sub env).1
  | .opSetCurrentORM sub => (setCurrentORM s sub).1
  | .opSetCurrentTenantConnection sub => (setCurrentTenantConnection s sub).1
  | .opSetCurrentMainConnection => setCurrentMainConnection s
  | .opBuildTenantConnections => buildTenantConnections s
  | .opBuildTenantORMs => buildTenantORMs s
  | .opMigrateMainDb upFails => (migrateMainDb s upFails).1
  | .opMigrateAllTenants upFails => migrateAllTenantsOp s upFails
  | .opSeedsAllTenants => seedsAllTenantsOp s
  | .opMigrate upFails => migrateOp s upFails

/-- Run a sequence of operations from a state. -/
def runOps (s : MTState) : List Op → MTState
  | [] => s
  | op :: rest => runOps (applyOp s op) rest

/-- The connection to which queries issued through model `n` of binding object
`oid` are routed: the binding's map stores the module-cached class of that
name, and queries go through the class's static knex binding. -/
def bindingModelConn (s : MTState) (oid : Nat) (n : String) : Option Nat :=
  match lookupK oid s.ormHeap with
  | none => none
  | some names => if names.contains n then lookupK n s.classKnex else none

/-- The association targets model `n` of binding object `oid` resolves to
(each target names the module-cached class the reference points at). -/
def bindingAssocTargets (s : MTState) (oid : Nat) (n : String) : List String :=
  match lookupK oid s.ormHeap with
  | none => []
  | some names => if names.contains n then (lookupK n s.classAssoc).getD [] else []

/-- Registry well-formedness: every registered tenant handle was allocated
before the next allocation counter, and the registry holds at most one entry
per tenant (no duplicate keys).  These hold in the constructor state and are
preserved by every handle creation, as the claim theorem shows. -/
def ConnWF (s : MTState) : Prop :=
  (∀ p ∈ s.tenantConnections, p.2 < s.nextConn) ∧
  (s.tenantConnections.map Prod.fst).Nodup

instance (s : MTState) : Decidable (ConnWF s) := by
  unfold ConnWF; infer_instance

/-- A binding object id that is allocated in the heap. -/
def OrmLive (hp : List (Nat × List String)) (oid : Nat) : Prop :=
  (lookupK oid hp).isSome = true

/-- The context invariant: the active-context slot references an allocated
binding object, and so does every stored tenant binding. -/
def CtxInv (s : MTState) : Prop :=
  (∃ oid, s.currentORM = some oid ∧ OrmLive s.ormHeap oid) ∧
  (∀ p ∈ s.tenantORMs, OrmLive s.ormHeap p.2)

/-- A concrete instance state used by witnesses and counterexamples: one
model file exporting `User` (no association hooks), an empty migration unit
set, an empty initial registry, and tenant `t1` provisioned successfully with
every storage-layer operation succeeding. -/
def wState1 : MTState :=
  (createTenant (mkMTState "main" ["User"] [] [] [] [])
    "t1" ⟨true, true, fun _ => false, true⟩).1

/-! ## Library lemmas on the map embedding -/

theorem lookupK_insertK_self {κ α : Type} [DecidableEq κ] (k : κ) (v : α) :
    ∀ (l : List (κ × α)), lookupK k (insertK k v l) = some v
  | [] => by simp [insertK, lookupK]
  | (a, b) :: tl => by
    by_cases hh : a = k
    · rw [insertK, if_pos hh, lookupK, if_pos rfl]
    · rw [insertK, if_neg hh, lookupK, if_neg hh]
      exact lookupK_insertK_self k v tl

theorem lookupK_insertK_ne {κ α : Type} [DecidableEq κ] {k k' : κ} (v : α)
    (h : k' ≠ k) : ∀ (l : List (κ × α)),
    lookupK k (insertK k' v l) = lookupK k l
  | [] => by simp [insertK, lookupK, h]
  | (a, b) :: tl => by
    by_cases hh : a = k'
    · rw [insertK, if_pos hh, lookupK, if_neg (hh ▸ h), lookupK, if_neg (hh ▸ h)]
    · rw [insertK, if_neg hh, lookupK, lookupK]
      by_cases hk : a = k
      · rw [if_pos hk, if_pos hk]
      · rw [if_neg hk, if_neg hk]
        exact lookupK_insertK_ne v h tl

theorem lookupK_bindAll (conn : Nat) (n : String) :
    ∀ (models : List String) (ck : List (String × Nat)),
    lookupK n (bindAll models conn ck) =
      if n ∈ models then some conn else lookupK n ck
  | [], ck => by simp [bindAll]
  | m :: ms, ck => by
    show lookupK n (bindAll ms conn (insertK m conn ck)) = _
    rw [lookupK_bindAll conn n ms (insertK m conn ck)]
    by_cases hmn : m = n
    · subst hmn
      by_cases hms : m ∈ ms
      · simp [hms]
      · simp [hms, lookupK_insertK_self]
    · have hnm : ¬ n = m := fun h => hmn h.symm
      by_cases hms : n ∈ ms
      · simp [hms, hnm]
      · simp [hms, hnm, lookupK_insertK_ne conn hmn ck]

theorem mem_insertK {κ α : Type} [DecidableEq κ] {p : κ × α} {k : κ} {v : α} :
    ∀ {l : List (κ × α)}, p ∈ insertK k v l → p = (k, v) ∨ p ∈ l
  | [], h => by simpa [insertK] using h
  | (a, b) :: tl, h => by
    by_cases hh : a = k
    · rw [insertK, if_pos hh] at h
      rcases List.mem_cons.mp h with h | h
      · exact Or.inl h
      · exact Or.inr (List.mem_cons_of_mem _ h)
    · rw [insertK, if_neg hh] at h
      rcases List.mem_cons.mp h with h | h
      · exact Or.inr (by simp [h])
      · rcases mem_insertK h with h' | h'
        · exact Or.inl h'
        · exact Or.inr (List.mem_cons_of_mem _ h')

theorem mem_keys_insertK {κ α : Type} [DecidableEq κ] {x k : κ} {v : α}
    {l : List (κ × α)} (h : x ∈ (insertK k v l).map Prod.fst) :
    x = k ∨ x ∈ l.map Prod.fst := by
  rcases List.mem_map.mp h with ⟨p, hp, hx⟩
  rcases mem_insertK hp with h' | h'
  · subst h'; exact Or.inl hx.symm
  · exact Or.inr (hx ▸ List.mem_map_of_mem Prod.fst h')

theorem nodup_keys_insertK {κ α : Type} [DecidableEq κ] (k : κ) (v : α) :
    ∀ {l : List (κ × α)}, (l.map Prod.fst).Nodup →
    ((insertK k v l).map Prod.fst).Nodup
  | [], _ => by simp [insertK]
  | (a, b) :: tl, h => by
    rw [List.map_cons, List.nodup_cons] at h
    by_cases hh : a = k
    · rw [insertK, if_pos hh, List.map_cons, List.nodup_cons]
      exact ⟨hh ▸ h.1, h.2⟩
    · rw [insertK, if_neg hh, List.map_cons, List.nodup_cons]
      refine ⟨fun hc => ?_, nodup_keys_insertK k v h.2⟩
      rcases mem_keys_insertK hc with h' | h'
      · exact hh h'
      · exact h.1 h'

/-! ## Claim theorems: per-connection migration sequence -/

/-- C3 — Per-connection migration sequence.  For a connection whose pending
list is `[A, B, C]` (an order-preserving selection from the discoverable unit
set, which `migrate.list` hands over in ascending identifier order), where
`A`'s `up` succeeds and `B`'s fails: the plan returned by
`_initializeMigrations` is exactly `[A, B, C]`; running it attempts the `up`
operations in exactly the order `[A, B]` (so `C` is never attempted — the
sequence halts at the failure), each success is recorded in the applied-ledger
before the next unit runs (so the ledger afterwards contains exactly `A` when
it started empty), and the error surfaced to the caller carries `B`'s
identifier. -/
theorem applyMigrations_sequential_halt (source : List String) (db : MigDb)
    (upFails : String → Bool) (a b c : String)
    (hpend : pendingOf source db = [a, b, c])
    (happ : db.applied = [])
    (ha : upFails a = false) (hb : upFails b = true) :
    (initMigrations source db).2 = some [a, b, c] ∧
    runPending upFails [a, b, c] db =
      ⟨⟨[a], db.schema ++ [a]⟩, [a, b], some b⟩ ∧
    (pendingOf source db).Sublist source := by
  refine ⟨?_, ?_, List.filter_sublist source⟩
  · simp [initMigrations, hpend]
  · simp [runPending, migrateUp, ha, hb, happ]

/-- Concrete instance of `applyMigrations_sequential_halt`: three fresh units
`a < b < c`, `b`'s `up` failing. -/
theorem applyMigrations_sequential_halt_witness :
    pendingOf ["a", "b", "c"] ⟨[], []⟩ = ["a", "b", "c"] ∧
    (⟨[], []⟩ : MigDb).applied = [] ∧
    ((fun u => u == "b") "a") = false ∧ ((fun u => u == "b") "b") = true ∧
    ((initMigrations ["a", "b", "c"] ⟨[], []⟩).2 = some ["a", "b", "c"] ∧
      runPending (fun u => u == "b") ["a", "b", "c"] ⟨[], []⟩ =
        ⟨⟨["a"], [] ++ ["a"]⟩, ["a", "b"], some "b"⟩ ∧
      (pendingOf ["a", "b", "c"] ⟨[], []⟩).Sublist ["a", "b", "c"]) :=
  ⟨by decide, rfl, by decide, by decide,
    applyMigrations_sequential_halt ["a", "b", "c"] ⟨[], []⟩
      (fun u => u == "b") "a" "b" "c" (by decide) rfl (by decide) (by decide)⟩

/-- C8 — Already-migrated idempotence.  For a connection with an empty pending
set, `_initializeMigrations` logs that nothing is pending and returns `null`
(an empty plan, not an error), and the caller pattern
`if (migrate) await migrate()` therefore does nothing: the applied-ledger and
the schema are exactly as before and no `up` runs. -/
theorem planMigrations_empty_noop (source : List String) (db : MigDb)
    (upFails : String → Bool) (h : pendingOf source db = []) :
    initMigrations source db = ([.pendingList [], .noNew], none) ∧
    runIfPending upFails source db = ⟨db, [], none⟩ := by
  constructor
  · simp [initMigrations, h]
  · simp [runIfPending, initMigrations, h]

/-- Concrete instance of `planMigrations_empty_noop`: both units applied. -/
theorem planMigrations_empty_noop_witness :
    pendingOf ["a", "b"] ⟨["a", "b"], ["a", "b"]⟩ = [] ∧
    (initMigrations ["a", "b"] ⟨["a", "b"], ["a", "b"]⟩ =
        ([.pendingList [], .noNew], none) ∧
      runIfPending (fun _ => true) ["a", "b"] ⟨["a", "b"], ["a", "b"]⟩ =
        ⟨⟨["a", "b"], ["a", "b"]⟩, [], none⟩) :=
  ⟨by decide,
    planMigrations_empty_noop ["a", "b"] ⟨["a", "b"], ["a", "b"]⟩
      (fun _ => true) (by decide)⟩

/-! ## Claim theorems: fleet-wide migration batch -/

/-- C2 counterexample — the batch produces no per-tenant outcome report.
Concrete fleet: `t1` has pending unit `m1` whose `up` succeeds, `t2` has
pending unit `m2` whose `up` fails.  The full output of `migrateAllTenants`
is computed: the method returns `undefined` (`err = none` is the only value
the caller sees), `t2`'s applied-ledger is unchanged (its migration really
failed), yet the terminal log line — the batch's only summary — is
`"All tenant migrations completed successfully."`, and no part of the output
marks `t1` successful or `t2` failed (neither tenant id appears anywhere in
it; the one warning carries only the failing unit's error).  So the claim's
"reports t1 successful and t2 failed" is false on this input. -/
theorem migrateAllTenants_no_per_tenant_report :
    migrateAllTenants ["m1", "m2"] (fun u => u == "m2") ["t1", "t2"]
        [("tenant_t1", ⟨["m2"], ["m2"]⟩), ("tenant_t2", ⟨["m1"], ["m1"]⟩)] =
      ⟨[("tenant_t1", ⟨["m2", "m1"], ["m2", "m1"]⟩),
        ("tenant_t2", ⟨["m1"], ["m1"]⟩)],
       [.pendingList ["m1"], .pendingList ["m2"], .migrationWarning "m2",
        .allTenantsComplete], none⟩ ∧
    (migrateAllTenants ["m1", "m2"] (fun u => u == "m2") ["t1", "t2"]
        [("tenant_t1", ⟨["m2"], ["m2"]⟩), ("tenant_t2", ⟨["m1"], ["m1"]⟩)]).logs.getLast? =
      some .allTenantsComplete := by
  constructor
  · decide
  · decide

/-- C2 (amended) — Fleet-wide partial-failure tolerance without a report.
For tenants `t1` (one pending unit, `up` succeeds) and `t2` (one pending
unit, `up` fails): the batch does not raise, `t1`'s plan is applied in full
(its ledger gains its unit), `t2`'s database is left as it was, the failure
is logged as a warning carrying the failing unit's error, and the batch ends
by logging a blanket success line; it returns no per-tenant outcome report
and identifies neither tenant in its output. -/
theorem migrateAllTenants_partial_failure_tolerant
    (source : List String) (upFails : String → Bool)
    (t1 t2 u1 u2 : String) (d1 d2 : MigDb)
    (hne : tenantDbName t1 ≠ tenantDbName t2)
    (h1 : pendingOf source d1 = [u1]) (h2 : pendingOf source d2 = [u2])
    (hu1 : upFails u1 = false) (hu2 : upFails u2 = true) :
    migrateAllTenants source upFails [t1, t2]
        [(tenantDbName t1, d1), (tenantDbName t2, d2)] =
      ⟨[(tenantDbName t1, ⟨d1.applied ++ [u1], d1.schema ++ [u1]⟩),
        (tenantDbName t2, d2)],
       [.pendingList [u1], .pendingList [u2], .migrationWarning u2,
        .allTenantsComplete], none⟩ := by
  simp [migrateAllTenants, planAll, applyAll, initMigrations, h1, h2,
        runPending, migrateUp, hu1, hu2, lookupK, insertK, hne]

/-- Concrete instance of `migrateAllTenants_partial_failure_tolerant`. -/
theorem migrateAllTenants_partial_failure_tolerant_witness :
    tenantDbName "ta" ≠ tenantDbName "tb" ∧
    pendingOf ["n1", "n2"] ⟨["n2"], ["n2"]⟩ = ["n1"] ∧
    pendingOf ["n1", "n2"] ⟨["n1"], ["n1"]⟩ = ["n2"] ∧
    ((fun u => u == "n2") "n1") = false ∧ ((fun u => u == "n2") "n2") = true ∧
    migrateAllTenants ["n1", "n2"] (fun u => u == "n2") ["ta", "tb"]
        [(tenantDbName "ta", ⟨["n2"], ["n2"]⟩), (tenantDbName "tb", ⟨["n1"], ["n1"]⟩)] =
      ⟨[(tenantDbName "ta", ⟨["n2"] ++ ["n1"], ["n2"] ++ ["n1"]⟩),
        (tenantDbName "tb", ⟨["n1"], ["n1"]⟩)],
       [.pendingList ["n1"], .pendingList ["n2"], .migrationWarning "n2",
        .allTenantsComplete], none⟩ :=
  ⟨by decide, by decide, by decide, by decide, by decide,
    migrateAllTenants_partial_failure_tolerant ["n1", "n2"] (fun u => u == "n2")
      "ta" "tb" "n1" "n2" ⟨["n2"], ["n2"]⟩ ⟨["n1"], ["n1"]⟩
      (by decide) (by decide) (by decide) (by decide) (by decide)⟩

/-! ## Projection lemmas for the class operations -/

theorem lookupK_mem {κ α : Type} [DecidableEq κ] {k : κ} {v : α} :
    ∀ {l : List (κ × α)}, lookupK k l = some v → (k, v) ∈ l
  | [], h => by simp [lookupK] at h
  | (a, b) :: tl, h => by
    by_cases hh : a = k
    · rw [lookupK, if_pos hh] at h
      injection h with hbv
      subst hh; subst hbv
      exact List.mem_cons_self _ _
    · rw [lookupK, if_neg hh] at h
      exact List.mem_cons_of_mem _ (lookupK_mem h)

@[simp] theorem ctc_snd (s : MTState) (sub : String) :
    (createTenantConnection s sub).2 = s.nextConn := by
  unfold createTenantConnection
  cases lookupK sub s.tenantConnections <;> rfl

@[simp] theorem ctc_nextConn (s : MTState) (sub : String) :
    (createTenantConnection s sub).1.nextConn = s.nextConn + 1 := by
  unfold createTenantConnection
  cases lookupK sub s.tenantConnections <;> rfl

@[simp] theorem ctc_connDb (s : MTState) (sub : String) :
    (createTenantConnection s sub).1.connDb =
      (s.nextConn, tenantDbName sub) :: s.connDb := by
  unfold createTenantConnection
  cases lookupK sub s.tenantConnections <;> rfl

@[simp] theorem ctc_tenantConnections (s : MTState) (sub : String) :
    (createTenantConnection s sub).1.tenantConnections =
      insertK sub s.nextConn s.tenantConnections := by
  unfold createTenantConnection
  cases lookupK sub s.tenantConnections <;> rfl

@[simp] theorem ctc_registry (s : MTState) (sub : String) :
    (createTenantConnection s sub).1.registry = s.registry := by
  unfold createTenantConnection
  cases lookupK sub s.tenantConnections <;> rfl

@[simp] theorem ctc_migSource (s : MTState) (sub : String) :
    (createTenantConnection s sub).1.migSource = s.migSource := by
  unfold createTenantConnection
  cases lookupK sub s.tenantConnections <;> rfl

@[simp] theorem ctc_models (s : MTState) (sub : String) :
    (createTenantConnection s sub).1.models = s.models := by
  unfold createTenantConnection
  cases lookupK sub s.tenantConnections <;> rfl

@[simp] theorem ctc_assocDecl (s : MTState) (sub : String) :
    (createTenantConnection s sub).1.assocDecl = s.assocDecl := by
  unfold createTenantConnection
  cases lookupK sub s.tenantConnections <;> rfl

@[simp] theorem ctc_classKnex (s : MTState) (sub : String) :
    (createTenantConnection s sub).1.classKnex = s.classKnex := by
  unfold createTenantConnection
  cases lookupK sub s.tenantConnections <;> rfl

@[simp] theorem ctc_classAssoc (s : MTState) (sub : String) :
    (createTenantConnection s sub).1.classAssoc = s.classAssoc := by
  unfold createTenantConnection
  cases lookupK sub s.tenantConnections <;> rfl

@[simp] theorem ctc_nextOrm (s : MTState) (sub : String) :
    (createTenantConnection s sub).1.nextOrm = s.nextOrm := by
  unfold createTenantConnection
  cases lookupK sub s.tenantConnections <;> rfl

@[simp] theorem ctc_ormHeap (s : MTState) (sub : String) :
    (createTenantConnection s sub).1.ormHeap = s.ormHeap := by
  unfold createTenantConnection
  cases lookupK sub s.tenantConnections <;> rfl

@[simp] theorem ctc_mainORM (s : MTState) (sub : String) :
    (createTenantConnection s sub).1.mainORM = s.mainORM := by
  unfold createTenantConnection
  cases lookupK sub s.tenantConnections <;> rfl

@[simp] theorem ctc_currentORM (s : MTState) (sub : String) :
    (createTenantConnection s sub).1.currentORM = s.currentORM := by
  unfold createTenantConnection
  cases lookupK sub s.tenantConnections <;> rfl

@[simp] theorem ctc_tenantORMs (s : MTState) (sub : String) :
    (createTenantConnection s sub).1.tenantORMs = s.tenantORMs := by
  unfold createTenantConnection
  cases lookupK sub s.tenantConnections <;> rfl

@[simp] theorem ctc_createdDbs (s : MTState) (sub : String) :
    (createTenantConnection s sub).1.createdDbs = s.createdDbs := by
  unfold createTenantConnection
  cases lookupK sub s.tenantConnections <;> rfl

@[simp] theorem ctc_dbMig (s : MTState) (sub : String) :
    (createTenantConnection s sub).1.dbMig = s.dbMig := by
  unfold createTenantConnection
  cases lookupK sub s.tenantConnections <;> rfl

@[simp] theorem ctc_mainConn (s : MTState) (sub : String) :
    (createTenantConnection s sub).1.mainConn = s.mainConn := by
  unfold createTenantConnection
  cases lookupK sub s.tenantConnections <;> rfl

theorem ctc_destroyed (s : MTState) (sub : String) :
    (createTenantConnection s sub).1.destroyed =
      match lookupK sub s.tenantConnections with
      | some old => old :: s.destroyed
      | none => s.destroyed := by
  unfold createTenantConnection
  cases lookupK sub s.tenantConnections <;> rfl

/-! ## Claim theorems: connection registry -/

/-- C7 — Connection-registry handle invariant.  On any well-formed registry,
`_createTenantConnection(subdomain)` returns the freshly allocated handle
(never one that was registered before the call, for any tenant); the new
handle is opened against the tenant's physical database name
`tenant_<subdomain>`; the registry afterwards maps the tenant to exactly that
handle, other tenants' entries are untouched, and an old handle of this
tenant, when present, has been destroyed before the new one is registered and
is no longer the tenant's registered handle; well-formedness — in particular
"at most one handle per tenant" — is preserved. -/
theorem openTenantConnection_fresh_handle (s : MTState) (sub : String)
    (hwf : ConnWF s) :
    (createTenantConnection s sub).2 = s.nextConn ∧
    (∀ p ∈ s.tenantConnections, p.2 ≠ (createTenantConnection s sub).2) ∧
    lookupK (createTenantConnection s sub).2 (createTenantConnection s sub).1.connDb =
      some (tenantDbName sub) ∧
    lookupK sub (createTenantConnection s sub).1.tenantConnections =
      some (createTenantConnection s sub).2 ∧
    (∀ t, t ≠ sub →
      lookupK t (createTenantConnection s sub).1.tenantConnections =
        lookupK t s.tenantConnections) ∧
    (∀ old, lookupK sub s.tenantConnections = some old →
      old ∈ (createTenantConnection s sub).1.destroyed ∧
      old ≠ (createTenantConnection s sub).2) ∧
    ConnWF (createTenantConnection s sub).1 := by
  refine ⟨ctc_snd s sub, ?_, ?_, ?_, ?_, ?_, ?_⟩
  · intro p hp
    rw [ctc_snd]
    exact Nat.ne_of_lt (hwf.1 p hp)
  · rw [ctc_snd, ctc_connDb, lookupK, if_pos rfl]
  · rw [ctc_snd, ctc_tenantConnections]
    exact lookupK_insertK_self sub s.nextConn s.tenantConnections
  · intro t ht
    rw [ctc_tenantConnections]
    exact lookupK_insertK_ne s.nextConn (fun h => ht h.symm) s.tenantConnections
  · intro old hold
    constructor
    · rw [ctc_destroyed, hold]
      exact List.mem_cons_self _ _
    · rw [ctc_snd]
      exact Nat.ne_of_lt (hwf.1 _ (lookupK_mem hold))
  · constructor
    · intro p hp
      rw [ctc_tenantConnections] at hp
      rw [ctc_nextConn]
      rcases mem_insertK hp with h | h
      · subst h; exact Nat.lt_succ_self _
      · exact Nat.lt_succ_of_lt (hwf.1 p h)
    · rw [ctc_tenantConnections]
      exact nodup_keys_insertK sub s.nextConn hwf.2

/-- Concrete instance of `openTenantConnection_fresh_handle`: a registry that
already holds a handle for `t0`, re-opened for `t0` (exercising the
destroy-then-replace path). -/
theorem openTenantConnection_fresh_handle_witness :
    ConnWF (createTenantConnection (mkMTState "m" [] [] [] [] []) "t0").1 ∧
    ((createTenantConnection (createTenantConnection (mkMTState "m" [] [] [] [] []) "t0").1 "t0").2 =
        (createTenantConnection (mkMTState "m" [] [] [] [] []) "t0").1.nextConn ∧
      (∀ p ∈ (createTenantConnection (mkMTState "m" [] [] [] [] []) "t0").1.tenantConnections,
        p.2 ≠ (createTenantConnection (createTenantConnection (mkMTState "m" [] [] [] [] []) "t0").1 "t0").2) ∧
      lookupK (createTenantConnection (createTenantConnection (mkMTState "m" [] [] [] [] []) "t0").1 "t0").2
          (createTenantConnection (createTenantConnection (mkMTState "m" [] [] [] [] []) "t0").1 "t0").1.connDb =
        some (tenantDbName "t0") ∧
      lookupK "t0"
          (createTenantConnection (createTenantConnection (mkMTState "m" [] [] [] [] []) "t0").1 "t0").1.tenantConnections =
        some (createTenantConnection (createTenantConnection (mkMTState "m" [] [] [] [] []) "t0").1 "t0").2 ∧
      (∀ t, t ≠ "t0" →
        lookupK t
            (createTenantConnection (createTenantConnection (mkMTState "m" [] [] [] [] []) "t0").1 "t0").1.tenantConnections =
          lookupK t (createTenantConnection (mkMTState "m" [] [] [] [] []) "t0").1.tenantConnections) ∧
      (∀ old,
        lookupK "t0" (createTenantConnection (mkMTState "m" [] [] [] [] []) "t0").1.tenantConnections = some old →
        old ∈ (createTenantConnection (createTenantConnection (mkMTState "m" [] [] [] [] []) "t0").1 "t0").1.destroyed ∧
        old ≠ (createTenantConnection (createTenantConnection (mkMTState "m" [] [] [] [] []) "t0").1 "t0").2) ∧
      ConnWF (createTenantConnection (createTenantConnection (mkMTState "m" [] [] [] [] []) "t0").1 "t0").1) :=
  ⟨by decide,
    openTenantConnection_fresh_handle
      (createTenantConnection (mkMTState "m" [] [] [] [] []) "t0").1 "t0" (by decide)⟩

@[simp] theorem im_snd (s : MTState) (c : Nat) : (importModels s c).2 = s.nextOrm := rfl

@[simp] theorem im_registry (s : MTState) (c : Nat) :
    (importModels s c).1.registry = s.registry := rfl

@[simp] theorem im_nextOrm (s : MTState) (c : Nat) :
    (importModels s c).1.nextOrm = s.nextOrm + 1 := rfl

@[simp] theorem im_ormHeap (s : MTState) (c : Nat) :
    (importModels s c).1.ormHeap = (s.nextOrm, s.models) :: s.ormHeap := rfl

@[simp] theorem im_classKnex (s : MTState) (c : Nat) :
    (importModels s c).1.classKnex = bindAll s.models c s.classKnex := rfl

@[simp] theorem im_classAssoc (s : MTState) (c : Nat) :
    (importModels s c).1.classAssoc = resolveAssoc s.assocDecl s.models := rfl

@[simp] theorem im_models (s : MTState) (c : Nat) :
    (importModels s c).1.models = s.models := rfl

@[simp] theorem im_currentORM (s : MTState) (c : Nat) :
    (importModels s c).1.currentORM = s.currentORM := rfl

@[simp] theorem im_tenantORMs (s : MTState) (c : Nat) :
    (importModels s c).1.tenantORMs = s.tenantORMs := rfl

@[simp] theorem im_tenantConnections (s : MTState) (c : Nat) :
    (importModels s c).1.tenantConnections = s.tenantConnections := rfl

@[simp] theorem im_connDb (s : MTState) (c : Nat) :
    (importModels s c).1.connDb = s.connDb := rfl

@[simp] theorem im_nextConn (s : MTState) (c : Nat) :
    (importModels s c).1.nextConn = s.nextConn := rfl

@[simp] theorem im_destroyed (s : MTState) (c : Nat) :
    (importModels s c).1.destroyed = s.destroyed := rfl

@[simp] theorem im_createdDbs (s : MTState) (c : Nat) :
    (importModels s c).1.createdDbs = s.createdDbs := rfl

@[simp] theorem im_dbMig (s : MTState) (c : Nat) :
    (importModels s c).1.dbMig = s.dbMig := rfl

@[simp] theorem im_migSource (s : MTState) (c : Nat) :
    (importModels s c).1.migSource = s.migSource := rfl

@[simp] theorem im_mainConn (s : MTState) (c : Nat) :
    (importModels s c).1.mainConn = s.mainConn := rfl

@[simp] theorem im_assocDecl (s : MTState) (c : Nat) :
    (importModels s c).1.assocDecl = s.assocDecl := rfl

@[simp] theorem im_mainORM (s : MTState) (c : Nat) :
    (importModels s c).1.mainORM = s.mainORM := rfl

/-! ## Claim theorems: context switch -/

/-- C6 — Context switch.  `setCurrentTenantConnection(tenantId)` fails with
the unknown-tenant error exactly when no binding is stored for the tenant,
and in that case the state is completely unchanged.  Otherwise it succeeds:
it opens a fresh connection for the tenant against `tenant_<tenantId>`
(destroying the previously registered handle, when one exists), rebuilds the
tenant's ORM binding against that fresh connection (a newly allocated binding
object whose every model class is statically rebound to the new handle),
stores the new binding under the tenant id, and reassigns the active context
to it. -/
theorem setCurrentTenantConnection_switch (s : MTState) (sub : String) :
    ((setCurrentTenantConnection s sub).2 = .error (.unknownTenant sub) ↔
      lookupK sub s.tenantORMs = none) ∧
    (lookupK sub s.tenantORMs = none →
      setCurrentTenantConnection s sub = (s, .error (.unknownTenant sub))) ∧
    (∀ oid0, lookupK sub s.tenantORMs = some oid0 →
      (setCurrentTenantConnection s sub).2 = .ok () ∧
      lookupK sub (setCurrentTenantConnection s sub).1.tenantConnections =
        some s.nextConn ∧
      lookupK s.nextConn (setCurrentTenantConnection s sub).1.connDb =
        some (tenantDbName sub) ∧
      (∀ old, lookupK sub s.tenantConnections = some old →
        old ∈ (setCurrentTenantConnection s sub).1.destroyed) ∧
      lookupK sub (setCurrentTenantConnection s sub).1.tenantORMs =
        some s.nextOrm ∧
      lookupK s.nextOrm (setCurrentTenantConnection s sub).1.ormHeap =
        some s.models ∧
      (∀ n ∈ s.models,
        lookupK n (setCurrentTenantConnection s sub).1.classKnex =
          some s.nextConn) ∧
      (setCurrentTenantConnection s sub).1.currentORM = some s.nextOrm) := by
  refine ⟨?_, ?_, ?_⟩
  · constructor
    · intro h
      cases he : lookupK sub s.tenantORMs with
      | none => rfl
      | some oid =>
        rw [setCurrentTenantConnection] at h
        rw [he] at h
        simp at h
    · intro h
      rw [setCurrentTenantConnection, h]
  · intro h
    rw [setCurrentTenantConnection, h]
  · intro oid0 h
    rw [setCurrentTenantConnection, h]
    cases hc : lookupK sub s.tenantConnections with
    | none =>
      refine ⟨rfl, ?_, ?_, ?_, ?_, ?_, ?_, ?_⟩
      · simp [createTenantConnection, hc, lookupK_insertK_self]
      · simp [createTenantConnection, hc, lookupK]
      · intro old hold
        cases hold
      · simp [createTenantConnection, hc, lookupK_insertK_self]
      · simp [createTenantConnection, hc, lookupK]
      · intro n hn
        simp [createTenantConnection, hc, lookupK_bindAll, hn]
      · simp [createTenantConnection, hc]
    | some old0 =>
      refine ⟨rfl, ?_, ?_, ?_, ?_, ?_, ?_, ?_⟩
      · simp [createTenantConnection, hc, lookupK_insertK_self]
      · simp [createTenantConnection, hc, lookupK]
      · intro old hold
        injection hold with he
        subst he
        simp [createTenantConnection, hc]
      · simp [createTenantConnection, hc, lookupK_insertK_self]
      · simp [createTenantConnection, hc, lookupK]
      · intro n hn
        simp [createTenantConnection, hc, lookupK_bindAll, hn]
      · simp [createTenantConnection, hc]

/-- Concrete instance of `setCurrentTenantConnection_switch` on the state with
tenant `t1` provisioned: binding `1` is stored for `t1`, and the switch opens
handle `wState1.nextConn`, rebuilds binding `wState1.nextOrm` against it, and
makes that binding current. -/
theorem setCurrentTenantConnection_switch_witness :
    lookupK "t1" wState1.tenantORMs = some 1 ∧
    ((setCurrentTenantConnection wState1 "t1").2 = .ok () ∧
      lookupK "t1" (setCurrentTenantConnection wState1 "t1").1.tenantConnections =
        some wState1.nextConn ∧
      lookupK wState1.nextConn (setCurrentTenantConnection wState1 "t1").1.connDb =
        some (tenantDbName "t1") ∧
      (∀ old, lookupK "t1" wState1.tenantConnections = some old →
        old ∈ (setCurrentTenantConnection wState1 "t1").1.destroyed) ∧
      lookupK "t1" (setCurrentTenantConnection wState1 "t1").1.tenantORMs =
        some wState1.nextOrm ∧
      lookupK wState1.nextOrm (setCurrentTenantConnection wState1 "t1").1.ormHeap =
        some wState1.models ∧
      (∀ n ∈ wState1.models,
        lookupK n (setCurrentTenantConnection wState1 "t1").1.classKnex =
          some wState1.nextConn) ∧
      (setCurrentTenantConnection wState1 "t1").1.currentORM =
        some wState1.nextOrm) :=
  ⟨by decide, (setCurrentTenantConnection_switch wState1 "t1").2.2 1 (by decide)⟩

/-! ## Provisioning lemmas -/

theorem createTenant_duplicate_case (s : MTState) (n : String) (env : ProvEnv)
    (h1 : s.registry.any (fun r => r.name == lowerStr n) = true) :
    createTenant s n env = (s, .error .duplicate) := by
  simp [createTenant, h1]

theorem createTenant_insert_infra_case (s : MTState) (n : String) (env : ProvEnv)
    (h1 : s.registry.any (fun r => r.name == lowerStr n) = false)
    (h2 : env.insertOk = false) :
    createTenant s n env = (s, .error .provisioningFailure) := by
  simp [createTenant, h1, h2]

theorem createTenant_ok_inv (s : MTState) (n : String) (env : ProvEnv)
    (tr : TenantRecord) (h : (createTenant s n env).2 = .ok tr) :
    tr = ⟨lowerStr n, "active", lowerStr n, tenantDbName (lowerStr n)⟩ ∧
    (createTenant s n env).1.registry = s.registry ++ [tr] := by
  cases h1 : s.registry.any (fun r => r.name == lowerStr n) with
  | true =>
    rw [createTenant_duplicate_case s n env h1] at h
    simp at h
  | false =>
    cases h2 : env.insertOk with
    | false =>
      rw [createTenant_insert_infra_case s n env h1 h2] at h
      simp at h
    | true =>
      cases h3 : env.createDbOk with
      | false =>
        simp [createTenant, h1, h2, h3] at h
      | true =>
        cases hc : lookupK (lowerStr n) s.tenantConnections with
        | none =>
          simp [createTenant, createTenantConnection, h1, h2, h3, hc,
            lookupK_insertK_self] at h ⊢
          cases hr : (runIfPending env.upFails s.migSource ⟨[], []⟩).err with
          | some u => simp [hr] at h
          | none =>
            simp only [hr] at h ⊢
            cases h4 : env.seedOk with
            | false => simp [h4] at h
            | true =>
              simp [h4] at h ⊢
              simp [← h]
        | some old =>
          simp [createTenant, createTenantConnection, h1, h2, h3, hc,
            lookupK_insertK_self] at h ⊢
          cases hr : (runIfPending env.upFails s.migSource ⟨[], []⟩).err with
          | some u => simp [hr] at h
          | none =>
            simp only [hr] at h ⊢
            cases h4 : env.seedOk with
            | false => simp [h4] at h
            | true =>
              simp [h4] at h ⊢
              simp [← h]

/-! ## Claim theorems: provisioning -/

/-- C4 — Provisioning success postcondition.  Whenever
`createTenant(name)` returns successfully, the returned TenantRecord has
`subdomain` equal to the lower-cased name, `status` `"active"`, and `dbName`
equal to `tenant_` followed by the lower-cased name, and that record has been
inserted into the system registry. -/
theorem provisionTenant_success_postcondition (s : MTState) (n : String)
    (env : ProvEnv) (tr : TenantRecord)
    (h : (createTenant s n env).2 = .ok tr) :
    tr.subdomain = lowerStr n ∧ tr.status = "active" ∧
    tr.dbName = tenantDbName (lowerStr n) ∧
    tr ∈ (createTenant s n env).1.registry := by
  obtain ⟨htr, hreg⟩ := createTenant_ok_inv s n env tr h
  refine ⟨by rw [htr], by rw [htr], by rw [htr], ?_⟩
  rw [hreg]
  simp

/-- Concrete instance of `provisionTenant_success_postcondition`:
`createTenant("Acme")` yields subdomain `"acme"`, status `"active"`, dbName
`"tenant_acme"`. -/
theorem provisionTenant_success_postcondition_witness :
    (createTenant (mkMTState "main" ["User"] [] [] [] []) "Acme"
        ⟨true, true, fun _ => false, true⟩).2 =
      .ok ⟨"acme", "active", "acme", "tenant_acme"⟩ ∧
    ((TenantRecord.mk "acme" "active" "acme" "tenant_acme").subdomain =
        lowerStr "Acme" ∧
      (TenantRecord.mk "acme" "active" "acme" "tenant_acme").status = "active" ∧
      (TenantRecord.mk "acme" "active" "acme" "tenant_acme").dbName =
        tenantDbName (lowerStr "Acme") ∧
      (TenantRecord.mk "acme" "active" "acme" "tenant_acme") ∈
        (createTenant (mkMTState "main" ["User"] [] [] [] []) "Acme"
          ⟨true, true, fun _ => false, true⟩).1.registry) :=
  ⟨rfl,
    provisionTenant_success_postcondition (mkMTState "main" ["User"] [] [] [] [])
      "Acme" ⟨true, true, fun _ => false, true⟩
      ⟨"acme", "active", "acme", "tenant_acme"⟩ rfl⟩

/-- C5 — Provisioning error taxonomy.  After a successful `createTenant(n1)`,
a second call with any name `n2` that lower-cases to the same subdomain fails
with the uniqueness-violation error (`"Subdomain already exists"`, the
`DuplicateTenantError`), leaving the state — in particular the created
databases and the stored bindings — completely unchanged; and any
registry-insert failure other than a uniqueness violation surfaces as
`"Something went wrong"` (the `ProvisioningError`), also leaving the state
unchanged, so no tenant database is created and no binding is stored in
either failure case. -/
theorem provisionTenant_error_taxonomy (s : MTState) (n1 n2 : String)
    (env1 env2 : ProvEnv) (tr : TenantRecord)
    (hcase : lowerStr n1 = lowerStr n2)
    (h1 : (createTenant s n1 env1).2 = .ok tr) :
    createTenant (createTenant s n1 env1).1 n2 env2 =
      ((createTenant s n1 env1).1, .error .duplicate) ∧
    (∀ s2 n env, s2.registry.any (fun r => r.name == lowerStr n) = false →
      env.insertOk = false →
      createTenant s2 n env = (s2, .error .provisioningFailure)) := by
  constructor
  · obtain ⟨htr, hreg⟩ := createTenant_ok_inv s n1 env1 tr h1
    apply createTenant_duplicate_case
    rw [hreg, List.any_append]
    have hname : tr.name = lowerStr n2 := by rw [htr]; exact hcase
    simp [hname]
  · intro s2 n env ha hb
    exact createTenant_insert_infra_case s2 n env ha hb

/-- Concrete instance of `provisionTenant_error_taxonomy`: `"Acme"` then
`"ACME"` — the second call hits the uniqueness violation; and an
infrastructure-failing insert on a fresh name surfaces the provisioning
error. -/
theorem provisionTenant_error_taxonomy_witness :
    lowerStr "Acme" = lowerStr "ACME" ∧
    (createTenant (mkMTState "main" ["User"] [] [] [] []) "Acme"
        ⟨true, true, fun _ => false, true⟩).2 =
      .ok ⟨"acme", "active", "acme", "tenant_acme"⟩ ∧
    (createTenant
        (createTenant (mkMTState "main" ["User"] [] [] [] []) "Acme"
          ⟨true, true, fun _ => false, true⟩).1 "ACME"
        ⟨true, true, fun _ => false, true⟩ =
      ((createTenant (mkMTState "main" ["User"] [] [] [] []) "Acme"
          ⟨true, true, fun _ => false, true⟩).1, .error .duplicate) ∧
      (∀ s2 n env, s2.registry.any (fun r => r.name == lowerStr n) = false →
        env.insertOk = false →
        createTenant s2 n env = (s2, .error .provisioningFailure))) :=
  ⟨by decide, rfl,
    provisionTenant_error_taxonomy (mkMTState "main" ["User"] [] [] [] [])
      "Acme" "ACME" ⟨true, true, fun _ => false, true⟩
      ⟨true, true, fun _ => false, true⟩
      ⟨"acme", "active", "acme", "tenant_acme"⟩ (by decide) rfl⟩

/-! ## Claim theorems: binding isolation and active-context initialization -/

/-- C1 — Binding isolation fails in the code.  Models path declares classes
`Task` and `User`, `User`'s associate hook wiring `User → Task`.  Provision
tenant `t1` (handle 1, binding object 1), then tenant `t2` (handle 2, binding
object 2); every storage-layer step succeeds.  Because `_importModels` loads
the model files through the module cache (`import` returns the same module
object on every call) and `modelModule[modelName].knex(connection)` is
Objection's per-class static binding, the descriptors stored in `t1`'s
binding are the same class objects stored in `t2`'s: after `t2`'s binding is
built, the association `User → Task` resolved inside `t1`'s binding points at
a descriptor whose static knex binding is `t2`'s connection (handle 2), and
indeed every model of `t1`'s binding routes queries to handle 2, not to
`t1`'s own handle 1.  This contradicts the claimed invariant that a binding's
descriptors route to exactly the connection they were bound to and that no
association resolves to a descriptor bound to another tenant's connection. -/
theorem importModels_cross_binding_leak :
    lookupK "t1"
        ((createTenant
          (createTenant (mkMTState "main" ["Task", "User"] [("User", ["Task"])] [] [] [])
            "t1" ⟨true, true, fun _ => false, true⟩).1
          "t2" ⟨true, true, fun _ => false, true⟩).1).tenantConnections = some 1 ∧
    lookupK "t2"
        ((createTenant
          (createTenant (mkMTState "main" ["Task", "User"] [("User", ["Task"])] [] [] [])
            "t1" ⟨true, true, fun _ => false, true⟩).1
          "t2" ⟨true, true, fun _ => false, true⟩).1).tenantConnections = some 2 ∧
    lookupK "t1"
        ((createTenant
          (createTenant (mkMTState "main" ["Task", "User"] [("User", ["Task"])] [] [] [])
            "t1" ⟨true, true, fun _ => false, true⟩).1
          "t2" ⟨true, true, fun _ => false, true⟩).1).tenantORMs = some 1 ∧
    bindingAssocTargets
        ((createTenant
          (createTenant (mkMTState "main" ["Task", "User"] [("User", ["Task"])] [] [] [])
            "t1" ⟨true, true, fun _ => false, true⟩).1
          "t2" ⟨true, true, fun _ => false, true⟩).1) 1 "User" = ["Task"] ∧
    bindingModelConn
        ((createTenant
          (createTenant (mkMTState "main" ["Task", "User"] [("User", ["Task"])] [] [] [])
            "t1" ⟨true, true, fun _ => false, true⟩).1
          "t2" ⟨true, true, fun _ => false, true⟩).1) 1 "Task" = some 2 ∧
    bindingModelConn
        ((createTenant
          (createTenant (mkMTState "main" ["Task", "User"] [("User", ["Task"])] [] [] [])
            "t1" ⟨true, true, fun _ => false, true⟩).1
          "t2" ⟨true, true, fun _ => false, true⟩).1) 1 "User" = some 2 := by
  refine ⟨?_, ?_, ?_, ?_, ?_, ?_⟩ <;> decide

/-- C9 counterexample — after constructing the instance and calling
`buildMainORM` (one system model `User`), the active context still references
the constructor's empty placeholder object (binding 0, with no models), while
the freshly built system binding is object 1 holding `User`: `getCurrentORM`
does not return the system binding. -/
theorem initial_context_not_system_binding :
    getCurrentORM (buildMainORM (mkMTState "main" ["User"] [] [] [] [])) = .ok 0 ∧
    lookupK 0 (buildMainORM (mkMTState "main" ["User"] [] [] [] [])).ormHeap =
      some [] ∧
    (buildMainORM (mkMTState "main" ["User"] [] [] [] [])).mainORM = 1 ∧
    lookupK 1 (buildMainORM (mkMTState "main" ["User"] [] [] [] [])).ormHeap =
      some ["User"] ∧
    getCurrentORM (buildMainORM (mkMTState "main" ["User"] [] [] [] [])) ≠
      .ok (buildMainORM (mkMTState "main" ["User"] [] [] [] [])).mainORM :=
  ⟨rfl, rfl, rfl, rfl,
    show (Except.ok 0 : Except TenantError Nat) ≠ Except.ok 1 by simp⟩

/-- C9 (amended) — Active-context initialization.  The constructor points the
active context at the `mainORM` placeholder (the empty binding object 0);
`buildMainORM` replaces the `mainORM` field with the freshly built system
binding (object 1, holding the system models) but does not reassign the
active context, so `getCurrentORM` still returns the empty placeholder — the
context holds the system binding only once `setCurrentMainConnection` (or a
tenant switch) reassigns it. -/
theorem initial_context_holds_placeholder (mainDb : String)
    (models : List String) (decl : List (String × List String))
    (src : List String) (reg : List TenantRecord) (dbm : DbMap) :
    (mkMTState mainDb models decl src reg dbm).currentORM =
      some (mkMTState mainDb models decl src reg dbm).mainORM ∧
    getCurrentORM (buildMainORM (mkMTState mainDb models decl src reg dbm)) =
      .ok 0 ∧
    lookupK 0 (buildMainORM (mkMTState mainDb models decl src reg dbm)).ormHeap =
      some [] ∧
    (buildMainORM (mkMTState mainDb models decl src reg dbm)).mainORM = 1 ∧
    lookupK 1 (buildMainORM (mkMTState mainDb models decl src reg dbm)).ormHeap =
      some models ∧
    (setCurrentMainConnection (buildMainORM (mkMTState mainDb models decl src reg dbm))).currentORM =
      some (setCurrentMainConnection (buildMainORM (mkMTState mainDb models decl src reg dbm))).mainORM :=
  ⟨rfl, rfl, rfl, rfl, rfl, rfl⟩

/-! ## Claim theorems: the active context is always a live binding -/

theorem ormLive_cons {hp : List (Nat × List String)} {oid : Nat} (k : Nat)
    (v : List String) (h : OrmLive hp oid) : OrmLive ((k, v) :: hp) oid := by
  unfold OrmLive at h ⊢
  rw [lookupK]
  by_cases hk : k = oid
  · simp [hk]
  · simpa [hk] using h

theorem ormLive_head (hp : List (Nat × List String)) (k : Nat) (v : List String) :
    OrmLive ((k, v) :: hp) k := by
  unfold OrmLive
  rw [lookupK, if_pos rfl]
  rfl

theorem ctxInv_same_fields {s s' : MTState} (h : CtxInv s)
    (hcur : s'.currentORM = s.currentORM) (hh : s'.ormHeap = s.ormHeap)
    (ht : s'.tenantORMs = s.tenantORMs) : CtxInv s' := by
  obtain ⟨⟨oid, hc, hl⟩, htor⟩ := h
  exact ⟨⟨oid, by rw [hcur]; exact hc, by rw [hh]; exact hl⟩,
    fun p hp => by rw [hh]; exact htor p (ht ▸ hp)⟩

theorem ctxInv_cons_heap {s s' : MTState} {k : Nat} {v : List String}
    (h : CtxInv s) (hcur : s'.currentORM = s.currentORM)
    (hh : s'.ormHeap = (k, v) :: s.ormHeap)
    (ht : s'.tenantORMs = s.tenantORMs) : CtxInv s' := by
  obtain ⟨⟨oid, hc, hl⟩, htor⟩ := h
  exact ⟨⟨oid, by rw [hcur]; exact hc, by rw [hh]; exact ormLive_cons k v hl⟩,
    fun p hp => by rw [hh]; exact ormLive_cons k v (htor p (ht ▸ hp))⟩

theorem ctxInv_cons_insert {s s' : MTState} {k : Nat} {v : List String}
    {sub : String} (h : CtxInv s)
    (hcur : s'.currentORM = s.currentORM ∨ s'.currentORM = some k)
    (hh : s'.ormHeap = (k, v) :: s.ormHeap)
    (ht : s'.tenantORMs = insertK sub k s.tenantORMs) : CtxInv s' := by
  obtain ⟨⟨oid, hc, hl⟩, htor⟩ := h
  constructor
  · rcases hcur with hcur | hcur
    · exact ⟨oid, by rw [hcur]; exact hc, by rw [hh]; exact ormLive_cons k v hl⟩
    · exact ⟨k, hcur, by rw [hh]; exact ormLive_head _ _ _⟩
  · intro p hp
    rw [ht] at hp
    rw [hh]
    rcases mem_insertK hp with he | hm
    · subst he; exact ormLive_head _ _ _
    · exact ormLive_cons k v (htor p hm)

theorem ctxInv_ctc (s : MTState) (sub : String) (h : CtxInv s) :
    CtxInv (createTenantConnection s sub).1 :=
  ctxInv_same_fields h (ctc_currentORM s sub) (ctc_ormHeap s sub)
    (ctc_tenantORMs s sub)

theorem ctxInv_importModels (s : MTState) (c : Nat) (h : CtxInv s) :
    CtxInv (importModels s c).1 :=
  ctxInv_cons_heap h rfl rfl rfl

theorem ctxInv_buildMainORM (s : MTState) (h : CtxInv s) :
    CtxInv (buildMainORM s) :=
  ctxInv_cons_heap h rfl rfl rfl

theorem ctxInv_setCurrentMainConnection (s : MTState) (h : CtxInv s) :
    CtxInv (setCurrentMainConnection s) := by
  obtain ⟨⟨oid, hc, hl⟩, htor⟩ := h
  refine ⟨⟨s.nextOrm, rfl, ormLive_head _ _ _⟩, ?_⟩
  intro p hp
  exact ormLive_cons _ _ (htor p hp)

theorem ctxInv_setCurrentORM (s : MTState) (sub : String) (h : CtxInv s) :
    CtxInv (setCurrentORM s sub).1 := by
  unfold setCurrentORM
  cases hl : lookupK sub s.tenantORMs with
  | none => exact h
  | some oid =>
    obtain ⟨_, htor⟩ := h
    exact ⟨⟨oid, rfl, htor (sub, oid) (lookupK_mem hl)⟩, htor⟩

theorem sctc_success_fields (s : MTState) (sub : String) (oid0 : Nat)
    (h : lookupK sub s.tenantORMs = some oid0) :
    (setCurrentTenantConnection s sub).1.currentORM = some s.nextOrm ∧
    (setCurrentTenantConnection s sub).1.ormHeap =
      (s.nextOrm, s.models) :: s.ormHeap ∧
    (setCurrentTenantConnection s sub).1.tenantORMs =
      insertK sub s.nextOrm s.tenantORMs := by
  rw [setCurrentTenantConnection, h]
  cases hc : lookupK sub s.tenantConnections <;>
    simp [createTenantConnection, hc]

theorem ctxInv_setCurrentTenantConnection (s : MTState) (sub : String)
    (h : CtxInv s) : CtxInv (setCurrentTenantConnection s sub).1 := by
  cases hl : lookupK sub s.tenantORMs with
  | none =>
    rw [setCurrentTenantConnection, hl]
    exact h
  | some oid0 =>
    obtain ⟨hcur, hh, ht⟩ := sctc_success_fields s sub oid0 hl
    exact ctxInv_cons_insert h (Or.inr hcur) hh ht

theorem createTenant_ctx_shape (s : MTState) (n : String) (env : ProvEnv) :
    (createTenant s n env).1.currentORM = s.currentORM ∧
    (((createTenant s n env).1.ormHeap = s.ormHeap ∧
      (createTenant s n env).1.tenantORMs = s.tenantORMs) ∨
     ((createTenant s n env).1.ormHeap = (s.nextOrm, s.models) :: s.ormHeap ∧
      (createTenant s n env).1.tenantORMs =
        insertK (lowerStr n) s.nextOrm s.tenantORMs)) := by
  cases h1 : s.registry.any (fun r => r.name == lowerStr n) with
  | true =>
    rw [createTenant_duplicate_case s n env h1]
    exact ⟨rfl, Or.inl ⟨rfl, rfl⟩⟩
  | false =>
    cases h2 : env.insertOk with
    | false =>
      rw [createTenant_insert_infra_case s n env h1 h2]
      exact ⟨rfl, Or.inl ⟨rfl, rfl⟩⟩
    | true =>
      cases h3 : env.createDbOk with
      | false =>
        constructor
        · simp [createTenant, h1, h2, h3]
        · exact Or.inl ⟨by simp [createTenant, h1, h2, h3],
            by simp [createTenant, h1, h2, h3]⟩
      | true =>
        cases hc : lookupK (lowerStr n) s.tenantConnections with
        | none =>
          cases hr : (runIfPending env.upFails s.migSource ⟨[], []⟩).err with
          | some u =>
            constructor
            · simp [createTenant, createTenantConnection, h1, h2, h3, hc,
                lookupK_insertK_self, hr]
            · exact Or.inl ⟨by simp [createTenant, createTenantConnection, h1,
                h2, h3, hc, lookupK_insertK_self, hr],
                by simp [createTenant, createTenantConnection, h1, h2, h3, hc,
                  lookupK_insertK_self, hr]⟩
          | none =>
            cases h4 : env.seedOk with
            | false =>
              constructor
              · simp [createTenant, createTenantConnection, h1, h2, h3, hc,
                  lookupK_insertK_self, hr, h4]
              · exact Or.inl ⟨by simp [createTenant, createTenantConnection,
                  h1, h2, h3, hc, lookupK_insertK_self, hr, h4],
                  by simp [createTenant, createTenantConnection, h1, h2, h3,
                    hc, lookupK_insertK_self, hr, h4]⟩
            | true =>
              constructor
              · simp [createTenant, createTenantConnection, h1, h2, h3, hc,
                  lookupK_insertK_self, hr, h4]
              · exact Or.inr ⟨by simp [createTenant, createTenantConnection,
                  h1, h2, h3, hc, lookupK_insertK_self, hr, h4],
                  by simp [createTenant, createTenantConnection, h1, h2, h3,
                    hc, lookupK_insertK_self, hr, h4]⟩
        | some old =>
          cases hr : (runIfPending env.upFails s.migSource ⟨[], []⟩).err with
          | some u =>
            constructor
            · simp [createTenant, createTenantConnection, h1, h2, h3, hc,
                lookupK_insertK_self, hr]
            · exact Or.inl ⟨by simp [createTenant, createTenantConnection, h1,
                h2, h3, hc, lookupK_insertK_self, hr],
                by simp [createTenant, createTenantConnection, h1, h2, h3, hc,
                  lookupK_insertK_self, hr]⟩
          | none =>
            cases h4 : env.seedOk with
            | false =>
              constructor
              · simp [createTenant, createTenantConnection, h1, h2, h3, hc,
                  lookupK_insertK_self, hr, h4]
              · exact Or.inl ⟨by simp [createTenant, createTenantConnection,
                  h1, h2, h3, hc, lookupK_insertK_self, hr, h4],
                  by simp [createTenant, createTenantConnection, h1, h2, h3,
                    hc, lookupK_insertK_self, hr, h4]⟩
            | true =>
              constructor
              · simp [createTenant, createTenantConnection, h1, h2, h3, hc,
                  lookupK_insertK_self, hr, h4]
              · exact Or.inr ⟨by simp [createTenant, createTenantConnection,
                  h1, h2, h3, hc, lookupK_insertK_self, hr, h4],
                  by simp [createTenant, createTenantConnection, h1, h2, h3,
                    hc, lookupK_insertK_self, hr, h4]⟩

theorem ctxInv_createTenant (s : MTState) (n : String) (env : ProvEnv)
    (h : CtxInv s) : CtxInv (createTenant s n env).1 := by
  obtain ⟨hcur, hsh⟩ := createTenant_ctx_shape s n env
  rcases hsh with ⟨hh, ht⟩ | ⟨hh, ht⟩
  · exact ctxInv_same_fields h hcur hh ht
  · exact ctxInv_cons_insert h (Or.inl hcur) hh ht

theorem foldl_preserves {β : Type} (P : MTState → Prop) (f : MTState → β → MTState)
    (hf : ∀ s b, P s → P (f s b)) :
    ∀ (l : List β) (s : MTState), P s → P (l.foldl f s)
  | [], _, h => h
  | b :: bs, s, h => foldl_preserves P f hf bs (f s b) (hf s b h)

theorem ctxInv_buildTenantConnections (s : MTState) (h : CtxInv s) :
    CtxInv (buildTenantConnections s) :=
  foldl_preserves CtxInv _ (fun s' r h' => ctxInv_ctc s' r.subdomain h')
    s.registry s h

theorem ctxInv_buildTenantORMs (s : MTState) (h : CtxInv s) :
    CtxInv (buildTenantORMs s) := by
  unfold buildTenantORMs
  have h0 : CtxInv (if s.tenantConnections.length = 0
      then buildTenantConnections s else s) := by
    split
    · exact ctxInv_buildTenantConnections s h
    · exact h
  exact foldl_preserves CtxInv
    (fun (acc : MTState) (kv : String × Nat) =>
      let q := importModels acc kv.2
      { q.1 with tenantORMs := insertK kv.1 q.2 q.1.tenantORMs })
    (fun (s' : MTState) (kv : String × Nat) h' =>
      @ctxInv_cons_insert s' _ s'.nextOrm s'.models kv.1 h' (Or.inl rfl) rfl rfl)
    _ _ h0

theorem ctxInv_migrateMainDb (s : MTState) (upFails : String → Bool)
    (h : CtxInv s) : CtxInv (migrateMainDb s upFails).1 :=
  ctxInv_same_fields h rfl rfl rfl

theorem ctxInv_migrateAllTenantsOp (s : MTState) (upFails : String → Bool)
    (h : CtxInv s) : CtxInv (migrateAllTenantsOp s upFails) := by
  have h1 : CtxInv (s.registry.foldl
      (fun acc r => (createTenantConnection acc r.subdomain).1) s) :=
    foldl_preserves CtxInv _ (fun s' r h' => ctxInv_ctc s' r.subdomain h')
      s.registry s h
  exact ctxInv_same_fields h1 rfl rfl rfl

theorem ctxInv_seedsAllTenantsOp (s : MTState) (h : CtxInv s) :
    CtxInv (seedsAllTenantsOp s) :=
  foldl_preserves CtxInv _ (fun s' r h' => ctxInv_ctc s' r.subdomain h')
    s.registry s h

theorem ctxInv_migrateOp (s : MTState) (upFails : String → Bool)
    (h : CtxInv s) : CtxInv (migrateOp s upFails) := by
  simp only [migrateOp]
  cases hp : (migrateMainDb s upFails).2 with
  | none =>
    exact ctxInv_seedsAllTenantsOp _
      (ctxInv_migrateAllTenantsOp _ upFails (ctxInv_migrateMainDb s upFails h))
  | some e => exact ctxInv_migrateMainDb s upFails h

theorem ctxInv_applyOp (s : MTState) (op : Op) (h : CtxInv s) :
    CtxInv (applyOp s op) := by
  cases op with
  | opBuildMainORM => exact ctxInv_buildMainORM s h
  | opCreateTenant sub env => exact ctxInv_createTenant s sub env h
  | opSetCurrentORM sub => exact ctxInv_setCurrentORM s sub h
  | opSetCurrentTenantConnection sub =>
    exact ctxInv_setCurrentTenantConnection s sub h
  | opSetCurrentMainConnection => exact ctxInv_setCurrentMainConnection s h
  | opBuildTenantConnections => exact ctxInv_buildTenantConnections s h
  | opBuildTenantORMs => exact ctxInv_buildTenantORMs s h
  | opMigrateMainDb upFails => exact ctxInv_migrateMainDb s upFails h
  | opMigrateAllTenants upFails => exact ctxInv_migrateAllTenantsOp s upFails h
  | opSeedsAllTenants => exact ctxInv_seedsAllTenantsOp s h
  | opMigrate upFails => exact ctxInv_migrateOp s upFails h

theorem ctxInv_runOps : ∀ (ops : List Op) (s : MTState), CtxInv s →
    CtxInv (runOps s ops)
  | [], _, h => h
  | op :: rest, s, h => ctxInv_runOps rest (applyOp s op) (ctxInv_applyOp s op h)

/-- C10 — `getCurrentORM` never throws.  In every state reachable from the
constructor by any sequence of public operations, the `currentORM` slot holds
a reference to an allocated binding object (it starts as the empty `mainORM`
placeholder and is only ever reassigned to stored or freshly built binding
objects), so `getCurrentORM`'s `"No current db set"` branch is unreachable
and the call returns a binding object. -/
theorem getCurrentORM_never_throws (ops : List Op) (mainDb : String)
    (models : List String) (decl : List (String × List String))
    (src : List String) (reg : List TenantRecord) (dbm : DbMap) :
    ∃ oid,
      (runOps (mkMTState mainDb models decl src reg dbm) ops).currentORM =
        some oid ∧
      getCurrentORM (runOps (mkMTState mainDb models decl src reg dbm) ops) =
        .ok oid ∧
      (lookupK oid
        (runOps (mkMTState mainDb models decl src reg dbm) ops).ormHeap).isSome =
        true := by
  have h0 : CtxInv (mkMTState mainDb models decl src reg dbm) := by
    refine ⟨⟨0, rfl, ?_⟩, ?_⟩
    · unfold OrmLive
      rfl
    · intro p hp
      cases hp
  obtain ⟨⟨oid, hcur, hlive⟩, _⟩ :=
    ctxInv_runOps ops (mkMTState mainDb models decl src reg dbm) h0
  refine ⟨oid, hcur, ?_, hlive⟩
  rw [getCurrentORM, hcur]
